import Mathlib

/-
  A shallow embedding, in Lean 4, of the response-processing core of the
  goacme ACME client (package goacme: acme.go, errors.go, jws.go).

  HTTP traffic is abstracted: each operation takes the outcome of its
  network call (`Except String Response`, where `.error` models a non-nil
  error from the Go http client) and the JSON decoding steps are passed in
  as functions (a `JsonCodec`), mirroring the calls into encoding/json.
  Everything downstream of the network call — status-code policy, header
  reading, error classification, field updates — is translated directly
  from the Go source.
-/

namespace GoAcme

/-- Go `textproto.CanonicalMIMEHeaderKey` on the characters of a key:
uppercase at the start and after each hyphen, lowercase elsewhere
(the invalid-byte fallback is not needed for the keys this client uses). -/
def canonChars : Bool → List Char → List Char
  | _, [] => []
  | up, c :: cs =>
    (if up then c.toUpper else c.toLower) :: canonChars (c = '-') cs

/-- Canonical form of a MIME header key, as Go's net/textproto computes it. -/
def canonicalMIMEHeaderKey (s : String) : String :=
  String.mk (canonChars true s.data)

/-- First value associated with a key in an association list. -/
def assocFind {α : Type} : List (String × α) → String → Option α
  | [], _ => none
  | (k, v) :: rest, key => if k = key then some v else assocFind rest key

/-- Go `http.Header`: canonical-cased keys mapped to lists of values. -/
def Header : Type := List (String × List String)

/-- Go `Header.Get`: first value under the canonicalized key, `""` if absent. -/
def headerGet (h : Header) (key : String) : String :=
  match assocFind h (canonicalMIMEHeaderKey key) with
  | some (v :: _) => v
  | _ => ""

/-- Go `h[key]`: direct map indexing with the exact key (used as `h["Link"]`). -/
def headerValues (h : Header) (key : String) : List String :=
  (assocFind h key).getD []

/-- The parts of a Go `*http.Response` this client reads: status code, the
status line text, headers, the body (as read by `ioutil.ReadAll` /
`json.NewDecoder`), and `ContentLength` (which Go sets to -1 when unknown). -/
structure Response where
  statusCode : Nat
  status : String := ""
  header : Header := []
  body : String := ""
  contentLength : Int := 0

/-- `Error` from errors.go: an ACME error with numeric code, URN type and
human-readable detail. The Go field `Type` is spelled `Typ` here because
`Type` is a Lean keyword; `Code` carries the json tag `"status"`. -/
structure Error where
  Code : Nat
  Typ : String
  Detail : String
deriving DecidableEq, Repr

/-- A Go `error` value as this client produces them: a transport error from
the http client, an `*Error` built by `responseError`, or a plain message
error (`errors.New` / `fmt.Errorf`). -/
inductive GoErr where
  | transport (msg : String)
  | acme (e : Error)
  | str (msg : String)
deriving DecidableEq, Repr

/-- The effect of `json.Unmarshal(b, e)` on an `*Error`: which of the fields
`status`, `type`, `detail` the JSON body provides. `none` at the top level
models an unmarshal error. -/
structure ProblemPatch where
  status : Option Nat := none
  typ : Option String := none
  detail : Option String := none

def errtBadCSR : String := "urn:acme:error:badCSR"

def errtBadNonce : String := "urn:acme:error:badNonce"

def errtConnection : String := "urn:acme:error:connection"

def errtDNSSec : String := "urn:acme:error:dnssec"

def errtMalformed : String := "urn:acme:error:malformed"

def errtInternal : String := "urn:acme:error:serverInternal"

def errtTLS : String := "urn:acme:error:tls"

def errtUnauthorized : String := "urn:acme:error:unauthorized"

def errtUnknownHost : String := "urn:acme:error:unknownHost"

def errtRateLimited : String := "urn:acme:error:rateLimited"

def ErrBadCSR : Error := ⟨400, errtBadCSR, "CSR is unacceptable"⟩

def ErrBadNonce : Error := ⟨400, errtBadNonce, "Unacceptable anti-replay nonce"⟩

def ErrConnection : Error := ⟨500, errtConnection, "Could not connect to the client for DV"⟩

def ErrDNSSec : Error := ⟨500, errtDNSSec, "Could not validate a DNSSEC signed domain"⟩

def ErrMalformed : Error := ⟨400, errtMalformed, "Request message is malformed"⟩

def ErrInternal : Error := ⟨500, errtInternal, "Internal Server Error"⟩

def ErrTLS : Error := ⟨500, errtTLS, "TLS error during DV"⟩

def ErrUnauthorized : Error := ⟨401, errtUnauthorized, "Client lacks sufficient authorization"⟩

def ErrUnknownHost : Error := ⟨500, errtUnknownHost, "Could not resolve domain name"⟩

def ErrRateLimited : Error := ⟨429, errtRateLimited, "Request exceeds rate limit"⟩

/-- `acmeErrors` from errors.go: ACME error type mapped to a pre-defined error. -/
def acmeErrors : List (String × Error) :=
  [ (errtBadCSR, ErrBadCSR)
  , (errtBadNonce, ErrBadNonce)
  , (errtConnection, ErrConnection)
  , (errtDNSSec, ErrDNSSec)
  , (errtMalformed, ErrMalformed)
  , (errtInternal, ErrInternal)
  , (errtTLS, ErrTLS)
  , (errtUnauthorized, ErrUnauthorized)
  , (errtUnknownHost, ErrUnknownHost)
  , (errtRateLimited, ErrRateLimited)
  ]

/-- `responseError` from errors.go (lines 77-92): start from
`Error{Code: resp.StatusCode}`, try to unmarshal the body into it; on
unmarshal failure fall back to the raw body (or the status line) as detail;
on success return the pre-defined error when the type is recognized,
otherwise the unmarshalled error itself. `decodeProblem` stands for
`json.Unmarshal` on the body. -/
def responseError (decodeProblem : String → Option ProblemPatch)
    (resp : Response) : Error :=
  let b := resp.body
  match decodeProblem b with
  | none =>
    let detail := if b = "" then resp.status else b
    { Code := resp.statusCode, Typ := "", Detail := detail }
  | some p =>
    let e : Error :=
      { Code := p.status.getD resp.statusCode
      , Typ := p.typ.getD ""
      , Detail := p.detail.getD "" }
    match assocFind acmeErrors e.Typ with
    | some pre => pre
    | none => e

/-- `fetchNonce` from acme.go (lines 352-363). The argument is the outcome of
`client.Head(url)`; the result models Go's `(string, error)` pair. Note the
source returns `"", nil` — no error — when the HEAD request itself fails. -/
def fetchNonce (headResult : Except String Response) : String × Option GoErr :=
  match headResult with
  | .error _ => ("", none)
  | .ok resp =>
    let enc := headerGet resp.header "replay-nonce"
    if enc = "" then ("", some (.str "nonce not found"))
    else (enc, none)

/-- Go `strings.Trim(s, cutset)`: remove leading and trailing characters
belonging to `cutset`. -/
def trimChars (cutset : List Char) (s : String) : String :=
  String.mk
    (((s.data.dropWhile (fun c => cutset.contains c)).reverse.dropWhile
      (fun c => cutset.contains c)).reverse)

/-- Inner loop of `parseLinkHeader`: scan the `;`-separated parts of one Link
header value; on a part of the form `rel="<rel>"` (quotes optional) return
the first part trimmed of angle brackets. `first` is `parts[0]`. -/
def linkParts (rel first : String) : List String → Option String
  | [] => none
  | p :: rest =>
    let q := p.trim
    if q.startsWith "rel=" then
      if trimChars ['"'] (q.drop 4) = rel then some (trimChars ['<', '>'] first)
      else linkParts rel first rest
    else linkParts rel first rest

/-- Outer loop of `parseLinkHeader` over the lines of `h["Link"]`. -/
def linkLines (rel : String) : List String → String
  | [] => ""
  | v :: vs =>
    let parts := v.splitOn ";"
    match linkParts rel (parts.headD "") parts with
    | some r => r
    | none => linkLines rel vs

/-- `parseLinkHeader` from acme.go (lines 365-379): find the URL of the Link
header value whose `rel` parameter equals `rel`, or `""`. (Lean's
`String.trim` covers the ASCII whitespace `strings.TrimSpace` removes.) -/
def parseLinkHeader (h : Header) (rel : String) : String :=
  linkLines rel (headerValues h "Link")

/-- `Account` from acme.go: the registration resource. -/
structure Account where
  URI : String := ""
  Contact : List String := []
  AgreedTerms : String := ""
  CurrentTerms : String := ""
  Authz : String := ""
  Authorizations : String := ""
  Certificates : String := ""
deriving DecidableEq, Repr

/-- The effect of `json.Decode(acct)` on an existing `*Account`: which json
fields (`uri`, `contact`, `agreement`, `terms`, `authz`, `authorizations`,
`certificates`) the body provides; absent fields leave the struct untouched. -/
structure AccountPatch where
  uri : Option String := none
  contact : Option (List String) := none
  agreedTerms : Option String := none
  currentTerms : Option String := none
  authz : Option String := none
  authorizations : Option String := none
  certificates : Option String := none

/-- Apply a decoded JSON body to an `Account`, with Go's
decode-into-existing-struct semantics: present fields overwrite, absent
fields are kept. -/
def applyAccountPatch (a : Account) (p : AccountPatch) : Account :=
  { URI := p.uri.getD a.URI
  , Contact := p.contact.getD a.Contact
  , AgreedTerms := p.agreedTerms.getD a.AgreedTerms
  , CurrentTerms := p.currentTerms.getD a.CurrentTerms
  , Authz := p.authz.getD a.Authz
  , Authorizations := p.authorizations.getD a.Authorizations
  , Certificates := p.certificates.getD a.Certificates }

/-- `AuthzID` from acme.go. The Go field `Type` is spelled `Typ`. -/
structure AuthzID where
  Typ : String := ""
  Value : String := ""
deriving DecidableEq, Repr

/-- `Challenge` from acme.go. -/
structure Challenge where
  Typ : String := ""
  URI : String := ""
  Token : String := ""
  Status : String := ""
deriving DecidableEq, Repr

/-- `Authorization` from acme.go, with the embedded `ChallengeSet` flattened
into its two fields. -/
structure Authorization where
  Challenges : List Challenge := []
  Combinations : List (List Nat) := []
  Identifier : AuthzID := {}
  URI : String := ""
  Status : String := ""
deriving DecidableEq, Repr

/-- `Endpoint` from acme.go: the ACME server directory. -/
structure Endpoint where
  RegURL : String := ""
  AuthzURL : String := ""
  CertURL : String := ""
  RevokeURL : String := ""
deriving DecidableEq, Repr

/-- An `x509.Certificate`, identified by the DER bytes it was parsed from
(its internal structure plays no role in this client). -/
structure Certificate where
  raw : String
deriving DecidableEq, Repr

/-- The library decoding/parsing calls the client makes, passed in as
functions: `json.Unmarshal` into an `*Error`, `json.Decode` into an
`*Account` / fresh `Authorization` / fresh `Challenge`, the directory decode
(whose Bool records whether `Decode` returned a nil error, since `Discover`
drops that error), and `x509.ParseCertificate`. -/
structure JsonCodec where
  problem : String → Option ProblemPatch
  account : String → Except String AccountPatch
  authorization : String → Except String Authorization
  challenge : String → Except String Challenge
  endpoint : String → Endpoint × Bool
  certificate : String → Except String Certificate

/-- The post-decode account updates of `doReg` (acme.go lines 318-327):
apply the decoded body to the account, overwrite `URI` from the `Location`
header, then `CurrentTerms`/`Authz` from matching Link headers when
present. -/
def doRegUpdate (acct : Account) (p : AccountPatch) (res : Response) : Account :=
  let a1 := applyAccountPatch acct p
  let a2 := { a1 with URI := headerGet res.header "Location" }
  let vTerms := parseLinkHeader res.header "terms-of-service"
  let a3 := if vTerms ≠ "" then { a2 with CurrentTerms := vTerms } else a2
  let vNext := parseLinkHeader res.header "next"
  if vNext ≠ "" then { a3 with Authz := vNext } else a3

/-- `doReg` from acme.go (lines 297-329), response side: accept any 2xx
status, decode the body into the account, then perform the `doRegUpdate`
header-driven updates. `typ` is the `resource` value of the request body
and does not affect response processing. -/
def doReg (J : JsonCodec) (typ : String) (acct : Account)
    (postResult : Except GoErr Response) : Except GoErr Account :=
  match postResult with
  | .error e => .error e
  | .ok res =>
    if res.statusCode < 200 ∨ res.statusCode > 299 then
      .error (.acme (responseError J.problem res))
    else
      match J.account res.body with
      | .error m => .error (.str ("Decode: " ++ m))
      | .ok p => .ok (doRegUpdate acct p res)

/-- `Register` from acme.go (lines 165-167): `doReg` with resource "new-reg". -/
def Register (J : JsonCodec) (acct : Account)
    (postResult : Except GoErr Response) : Except GoErr Account :=
  doReg J "new-reg" acct postResult

/-- `GetReg` from acme.go: `doReg` with resource "reg" on a fresh Account. -/
def GetReg (J : JsonCodec) (postResult : Except GoErr Response) :
    Except GoErr Account :=
  doReg J "reg" {} postResult

/-- `UpdateReg` from acme.go: `doReg` with resource "reg". -/
def UpdateReg (J : JsonCodec) (acct : Account)
    (postResult : Except GoErr Response) : Except GoErr Account :=
  doReg J "reg" acct postResult

/-- `Authorize` from acme.go (lines 190-216), response side: require 201,
decode the body, set `URI` from the `Location` header, and reject any
immediate status other than "pending". -/
def Authorize (J : JsonCodec) (postResult : Except GoErr Response) :
    Except GoErr Authorization :=
  match postResult with
  | .error e => .error e
  | .ok res =>
    if res.statusCode ≠ 201 then .error (.acme (responseError J.problem res))
    else
      match J.authorization res.body with
      | .error m => .error (.str ("Decode: " ++ m))
      | .ok az0 =>
        let az := { az0 with URI := headerGet res.header "Location" }
        if az.Status ≠ "pending" then
          .error (.str ("Unexpected status: " ++ az.Status))
        else .ok az

/-- `Accept` from acme.go (lines 241-267), response side: the protocol
specifies 200 but letsencrypt returns 202, so both are success; anything
else is classified by `responseError`. -/
def Accept (J : JsonCodec) (postResult : Except GoErr Response) :
    Except GoErr Challenge :=
  match postResult with
  | .error e => .error e
  | .ok res =>
    if res.statusCode ≠ 200 ∧ res.statusCode ≠ 202 then
      .error (.acme (responseError J.problem res))
    else
      match J.challenge res.body with
      | .error m => .error (.str ("Decode: " ++ m))
      | .ok rc => .ok rc

/-- `CreateCert` from acme.go (lines 119-158), response side: require 201;
when `ContentLength > 0` read and parse the body as a DER certificate,
otherwise leave the certificate nil; either way return the `Location`
header as the certificate URL. (The `ioutil.ReadAll` error path has no
counterpart here: the body is already in hand.) -/
def CreateCert (J : JsonCodec) (postResult : Except GoErr Response) :
    Except GoErr (Option Certificate × String) :=
  match postResult with
  | .error e => .error e
  | .ok res =>
    if res.statusCode ≠ 201 then .error (.acme (responseError J.problem res))
    else if res.contentLength > 0 then
      match J.certificate res.body with
      | .error m => .error (.str ("ParseCertificate: " ++ m))
      | .ok cert => .ok (some cert, headerGet res.header "Location")
    else .ok (none, headerGet res.header "Location")

/-- `Discover` from acme.go (lines 333-350): require 200, then decode the
directory. The source writes `if json.NewDecoder(res.Body).Decode(&ep);
err != nil`, testing the enclosing `err` (nil at this point), so the Decode
error is discarded and the possibly partial endpoint is returned with a nil
error. -/
def Discover (J : JsonCodec) (getResult : Except String Response) :
    Except GoErr Endpoint :=
  match getResult with
  | .error e => .error (.transport e)
  | .ok res =>
    if res.statusCode ≠ 200 then .error (.acme (responseError J.problem res))
    else .ok (J.endpoint res.body).1

/-- Truncate to a 32-bit word, as every SHA-256 step does implicitly. -/
def w32 (n : Nat) : Nat := n % 4294967296

/-- Right rotation of a 32-bit word by `r` bits. -/
def rotr (r w : Nat) : Nat := w32 ((w >>> r) ||| (w <<< (32 - r)))

/-- SHA-256 Ch function; complement realized as xor with the 32-bit mask. -/
def shaCh (x y z : Nat) : Nat := (x &&& y) ^^^ ((x ^^^ 4294967295) &&& z)

/-- SHA-256 Maj function. -/
def shaMaj (x y z : Nat) : Nat := (x &&& y) ^^^ (x &&& z) ^^^ (y &&& z)

/-- SHA-256 capital-sigma-0. -/
def shaS0 (x : Nat) : Nat := rotr 2 x ^^^ rotr 13 x ^^^ rotr 22 x

/-- SHA-256 capital-sigma-1. -/
def shaS1 (x : Nat) : Nat := rotr 6 x ^^^ rotr 11 x ^^^ rotr 25 x

/-- SHA-256 small-sigma-0. -/
def shas0 (x : Nat) : Nat := rotr 7 x ^^^ rotr 18 x ^^^ (x >>> 3)

/-- SHA-256 small-sigma-1. -/
def shas1 (x : Nat) : Nat := rotr 17 x ^^^ rotr 19 x ^^^ (x >>> 10)

/-- The 64 SHA-256 round constants (FIPS 180-4), written in decimal. -/
def shaK : List Nat :=
  [ 1116352408, 1899447441, 3049323471, 3921009573, 961987163
  , 1508970993, 2453635748, 2870763221, 3624381080, 310598401
  , 607225278, 1426881987, 1925078388, 2162078206, 2614888103
  , 3248222580, 3835390401, 4022224774, 264347078, 604807628
  , 770255983, 1249150122, 1555081692, 1996064986, 2554220882
  , 2821834349, 2952996808, 3210313671, 3336571891, 3584528711
  , 113926993, 338241895, 666307205, 773529912, 1294757372
  , 1396182291, 1695183700, 1986661051, 2177026350, 2456956037
  , 2730485921, 2820302411, 3259730800, 3345764771, 3516065817
  , 3600352804, 4094571909, 275423344, 430227734, 506948616
  , 659060556, 883997877, 958139571, 1322822218, 1537002063
  , 1747873779, 1955562222, 2024104815, 2227730452, 2361852424
  , 2428436474, 2756734187, 3204031479, 3329325298 ]

/-- The SHA-256 initial hash value (FIPS 180-4), written in decimal. -/
def shaH0 : List Nat :=
  [ 1779033703, 3144134277, 1013904242, 2773480762
  , 1359893119, 2600822924, 528734635, 1541459225 ]

/-- Big-endian bytes of a natural number, fixed width `k`. -/
def natToBytesFixed (k n : Nat) : List Nat :=
  match k with
  | 0 => []
  | k + 1 => natToBytesFixed k (n / 256) ++ [n % 256]

/-- Minimal big-endian bytes of a natural number, fuel-driven; `0` gives `[]`
(matching Go `big.Int.Bytes`). The fuel bounds the number of digits. -/
def natToBytesAux : Nat → Nat → List Nat
  | 0, _ => []
  | fuel + 1, n =>
    if n = 0 then [] else natToBytesAux fuel (n / 256) ++ [n % 256]

/-- Go `big.Int.Bytes()` for a non-negative integer: minimal big-endian form. -/
def natToBytes (n : Nat) : List Nat := natToBytesAux n n

/-- A big-endian byte list as a natural number (Go `big.Int.SetBytes`). -/
def natFromBytes (bs : List Nat) : Nat := bs.foldl (fun a b => a * 256 + b) 0

/-- Group a byte list into big-endian 32-bit words (length a multiple of 4). -/
def bytesToWords : List Nat → List Nat
  | b0 :: b1 :: b2 :: b3 :: rest =>
    (((b0 * 256 + b1) * 256 + b2) * 256 + b3) :: bytesToWords rest
  | _ => []

/-- Split a word list into 16-word blocks; the fuel bounds the block count. -/
def wordsToBlocks : Nat → List Nat → List (List Nat)
  | 0, _ => []
  | _, [] => []
  | fuel + 1, ws => ws.take 16 :: wordsToBlocks fuel (ws.drop 16)

/-- Extend a block's message schedule; `accRev` holds the words produced so
far, most recent first, so w[t-2], w[t-7], w[t-15], w[t-16] sit at reversed
indices 1, 6, 14, 15. -/
def shaSchedule : Nat → List Nat → List Nat
  | 0, accRev => accRev.reverse
  | fuel + 1, accRev =>
    let g := fun i => accRev.getD i 0
    shaSchedule fuel (w32 (shas1 (g 1) + g 6 + shas0 (g 14) + g 15) :: accRev)

/-- The 64 compression rounds over the paired round constants and schedule. -/
def shaRounds : List (Nat × Nat) → List Nat → List Nat
  | [], st => st
  | (k, w) :: rest, [a, b, c, d, e, f, g, h] =>
    let t1 := w32 (h + shaS1 e + shaCh e f g + k + w)
    let t2 := w32 (shaS0 a + shaMaj a b c)
    shaRounds rest [w32 (t1 + t2), a, b, c, w32 (d + t1), e, f, g]
  | _, st => st

/-- Process one 16-word block: extend the schedule, run the 64 rounds, add. -/
def shaCompress (st : List Nat) (block : List Nat) : List Nat :=
  let sched := shaSchedule 48 block.reverse
  let out := shaRounds (shaK.zip sched) st
  List.zipWith (fun x y => w32 (x + y)) st out

/-- Fold the compression over all blocks. -/
def shaFold (st : List Nat) : List (List Nat) → List Nat
  | [] => st
  | b :: bs => shaFold (shaCompress st b) bs

/-- SHA-256 padding: append 0x80, zero bytes to 56 mod 64, then the bit
length as 8 big-endian bytes. -/
def shaPad (msg : List Nat) : List Nat :=
  let l := msg.length
  let zeros := (119 - l % 64) % 64
  msg ++ 0x80 :: List.replicate zeros 0 ++ natToBytesFixed 8 (8 * l)

/-- SHA-256 of a byte list, as 32 digest bytes (Go `sha256.Sum256`). -/
def sha256 (msg : List Nat) : List Nat :=
  let padded := shaPad msg
  let blocks := wordsToBlocks (padded.length / 64 + 1) (bytesToWords padded)
  (shaFold shaH0 blocks).flatMap (natToBytesFixed 4)

/-- The base64url alphabet (RFC 4648 section 5). -/
def b64urlAlphabet : List Char :=
  "ABCDEFGHIJKLMNOPQRSTUVWXYZabcdefghijklmnopqrstuvwxyz0123456789-_".data

/-- The base64url character for a 6-bit value. -/
def b64urlChar (v : Nat) : Char := b64urlAlphabet.getD v 'A'

/-- Raw (unpadded) base64url encoding of bytes, three at a time
(Go `base64.RawURLEncoding.EncodeToString`). -/
def b64urlChars : List Nat → List Char
  | [] => []
  | [b0] => [b64urlChar (b0 >>> 2), b64urlChar ((b0 &&& 3) <<< 4)]
  | [b0, b1] =>
    [ b64urlChar (b0 >>> 2)
    , b64urlChar (((b0 &&& 3) <<< 4) ||| (b1 >>> 4))
    , b64urlChar ((b1 &&& 15) <<< 2) ]
  | b0 :: b1 :: b2 :: rest =>
    b64urlChar (b0 >>> 2)
      :: b64urlChar (((b0 &&& 3) <<< 4) ||| (b1 >>> 4))
      :: b64urlChar (((b1 &&& 15) <<< 2) ||| (b2 >>> 6))
      :: b64urlChar (b2 &&& 63)
      :: b64urlChars rest

/-- Raw base64url encoding as a string. -/
def b64urlEncode (bs : List Nat) : String := String.mk (b64urlChars bs)

/-- Index of a character in the base64url alphabet (for decoding). -/
def b64urlVal (c : Char) : Nat := (b64urlAlphabet.indexOf c : Nat)

/-- Raw base64url decoding (Go `base64.RawURLEncoding.DecodeString`),
assuming valid input length (not 1 mod 4). -/
def b64urlDecode : List Char → List Nat
  | c0 :: c1 :: c2 :: c3 :: rest =>
    let n := (b64urlVal c0 <<< 18) ||| (b64urlVal c1 <<< 12) |||
      (b64urlVal c2 <<< 6) ||| b64urlVal c3
    (n >>> 16) :: ((n >>> 8) &&& 255) :: (n &&& 255) :: b64urlDecode rest
  | [c0, c1] => [(b64urlVal c0 <<< 2) ||| (b64urlVal c1 >>> 4)]
  | [c0, c1, c2] =>
    let n := (b64urlVal c0 <<< 12) ||| (b64urlVal c1 <<< 6) ||| b64urlVal c2
    [n >>> 10, (n >>> 2) &&& 255]
  | _ => []

/-- The bytes of an ASCII string (all strings hashed here are ASCII, where
UTF-8 encoding is the identity on code points). -/
def strBytes (s : String) : List Nat := s.data.map Char.toNat

/-- `rsa.PublicKey`: modulus `N` (a non-negative `big.Int`) and exponent `E`. -/
structure RSAPublicKey where
  N : Nat
  E : Nat

/-- `jwkThumbprint` from jws.go (lines 63-71): base64url-encode the SHA-256
of the canonical JWK JSON built from the big-endian bytes of E and N. -/
def jwkThumbprint (key : RSAPublicKey) : String :=
  let jwk := "\x7b\"e\":\"" ++ b64urlEncode (natToBytes key.E) ++
    "\",\"kty\":\"RSA\",\"n\":\"" ++ b64urlEncode (natToBytes key.N) ++ "\"\x7d"
  b64urlEncode (sha256 (strBytes jwk))

/-- Decidable equality on `Except`, so concrete runs of the operations can
be checked with `decide`. -/
instance {ε α : Type} [DecidableEq ε] [DecidableEq α] : DecidableEq (Except ε α) :=
  fun x y =>
    match x, y with
    | .ok a, .ok b =>
      if h : a = b then .isTrue (by rw [h])
      else .isFalse (by intro he; cases he; exact h rfl)
    | .error a, .error b =>
      if h : a = b then .isTrue (by rw [h])
      else .isFalse (by intro he; cases he; exact h rfl)
    | .ok _, .error _ => .isFalse (by intro he; cases he)
    | .error _, .ok _ => .isFalse (by intro he; cases he)

/-! Test fixtures: a benign codec and concrete responses, mirroring the
scenarios of acme_test.go and errors_test.go. -/

/-- A codec whose decoders all succeed on trivial values; witnesses override
the field under test. -/
def testCodec : JsonCodec where
  problem := fun _ => none
  account := fun _ => .ok {}
  authorization := fun _ => .ok {}
  challenge := fun _ => .ok {}
  endpoint := fun _ => ({}, true)
  certificate := fun s => .ok ⟨s⟩

/-- The third TestResponseError body: a recognized type with a JSON status
differing from the HTTP code. -/
def mal409Body : String :=
  "\x7b\"type\":\"urn:acme:error:malformed\",\"detail\":\"Already in use\",\"status\":409\x7d"

/-- `json.Unmarshal` behaviour on `mal409Body`: sets all three fields. -/
def mal409Unmarshal : String → Option ProblemPatch := fun s =>
  if s = mal409Body then
    some { status := some 409, typ := some errtMalformed, detail := some "Already in use" }
  else none

/-- The response carrying `mal409Body` with HTTP code 400. -/
def mal409Response : Response :=
  { statusCode := 400, status := "400 Bad Request", body := mal409Body }

/-- The modulus of the RFC 7638 section 3.1 example key, base64url. -/
def rfc7638Base64N : String :=
  "0vx7agoebGcQSuuPiLJXZptN9nndrQmbXEps2aiAFbWhM78LhWx4cbbfAAt" ++
  "VT86zwu1RK7aPFFxuhDR1L6tSoc_BJECPebWKRXjBZCiFV4n3oknjhMstn6" ++
  "4tZ_2W-5JsGY4Hc5n9yBXArwl93lqt7_RN5w6Cf0h4QyQ5v-65YGjQR0_FD" ++
  "W2QvzqY368QQMicAtaSqzs8KJZgnYb9c7d0zgdAZHzu6qMQvRL5hajrn1n9" ++
  "1CbOpbISD08qNLyrdkt-bFTWhAI4vMQFh6WeZu0fM4lFd2NcRwr3XPksINH" ++
  "aQ-G_xBniIqbw0Ls1jF44-csFCur-kEgU8awapJzKnqDKgw"

/-- The RFC 7638 example key, decoded as in TestJWKThumbprint. -/
def rfc7638Key : RSAPublicKey where
  N := natFromBytes (b64urlDecode rfc7638Base64N.data)
  E := natFromBytes (b64urlDecode "AQAB".data)

/-- A 400 HEAD response that carries a fresh nonce (TestFetchNonce case 2). -/
def nonceResponse400 : Response :=
  { statusCode := 400, header := [("Replay-Nonce", ["nonce2"])] }

/-- A 200 HEAD response without a Replay-Nonce header. -/
def noNonceResponse : Response := { statusCode := 200 }

/-- A directory decode that fails, leaving a partially filled endpoint. -/
def badDirCodec : JsonCodec :=
  { testCodec with endpoint := fun _ => ({ RegURL := "https://partial" }, false) }

/-- A 200 directory response whose body is not valid JSON. -/
def dir200 : Response := { statusCode := 200, body := "not json" }

/-- An authorization decode producing immediate status "valid". -/
def azValidCodec : JsonCodec :=
  { testCodec with authorization := fun _ => .ok { Status := "valid" } }

/-- An authorization decode producing immediate status "pending". -/
def azPendingCodec : JsonCodec :=
  { testCodec with authorization := fun _ => .ok { Status := "pending" } }

/-- A bare 201 response. -/
def res201 : Response := { statusCode := 201 }

/-- The http-01 challenge of TestAcceptChallenge. -/
def chal1 : Challenge :=
  { Typ := "http-01", URI := "https://ca.example/chal/1"
  , Token := "token1", Status := "pending" }

/-- A challenge decode producing `chal1`. -/
def chalCodec : JsonCodec := { testCodec with challenge := fun _ => .ok chal1 }

/-- A bare 202 response. -/
def res202 : Response := { statusCode := 202 }

/-- A 404 response with an empty body. -/
def res404 : Response := { statusCode := 404, status := "404 Not Found" }

/-- A 200 registration response with a Location header and no Link headers. -/
def reg200Response : Response :=
  { statusCode := 200, header := [("Location", ["https://ca.example/acme/reg/1"])] }

/-- A 202 registration response with a Location header and no Link headers. -/
def regNoLinkResponse : Response :=
  { statusCode := 202, header := [("Location", ["https://ca.example/acme/reg/1"])] }

/-- A 400 registration response with an empty body. -/
def reg400Response : Response := { statusCode := 400, status := "400 Bad Request" }

/-- An account decode whose body JSON provides a `terms` field. -/
def termsBodyCodec : JsonCodec :=
  { testCodec with
    account := fun _ => .ok { currentTerms := some "https://ca.example/terms/v2" } }

/-- An account with prior terms and authz values. -/
def priorAccount : Account :=
  { CurrentTerms := "https://ca.example/terms/v1"
  , Authz := "https://ca.example/acme/new-authz" }

/-- A 201 new-cert response with an empty body and a Location header. -/
def cert201Empty : Response :=
  { statusCode := 201, header := [("Location", ["https://ca.example/cert/1"])] }

/-- A 201 new-cert response carrying a (stand-in) DER body. -/
def cert201Body : Response :=
  { statusCode := 201, body := "DER", contentLength := 3
  , header := [("Location", ["https://ca.example/cert/1"])] }

/-! Theorems for the claims. -/

/-- Claim C1: under `responseError` (errors.go), a body whose JSON provides
`status: 409` together with HTTP code 400 does NOT yield an Error with
status 409 when the type is recognized: the pre-defined `ErrMalformed`,
whose code is fixed at 400, is returned instead, and the JSON-provided
status (and detail) are dropped. This evaluates the code at the failing
input of the claim (the input of errors_test.go's third case, which expects
status 409 and detail "Already in use"). -/
theorem responseError_recognized_type_drops_json_status :
    responseError mal409Unmarshal mal409Response = ErrMalformed
    ∧ (responseError mal409Unmarshal mal409Response).Code = 400
    ∧ (responseError mal409Unmarshal mal409Response).Code ≠ 409
    ∧ (responseError mal409Unmarshal mal409Response).Detail ≠ "Already in use" := by
  refine ⟨by decide, by decide, by decide, by decide⟩

/-- Claim C2: when the HEAD request itself fails at the transport level,
`fetchNonce` returns `("", nil)` — no error at all — because its error
branch reads `return "", nil`. This evaluates the code at the failing
input; the claim (and spec section 4.3) require a non-nil error
distinguishable from the "nonce not found" error. -/
theorem fetchNonce_transport_failure_returns_nil_error :
    fetchNonce (.error "connection refused") = ("", none) := rfl

set_option maxRecDepth 10000 in
/-- Claim C3: `jwkThumbprint` on the RFC 7638 example key (decoded exactly
as in TestJWKThumbprint) equals the published reference thumbprint. The
definition of `jwkThumbprint` builds the canonical JSON
`("e", "kty", "n"` in lexicographic order, no whitespace), SHA-256 hashes
it and base64url-encodes the digest without padding. -/
theorem jwkThumbprint_rfc7638_example :
    jwkThumbprint rfc7638Key = "NzbLsXh8uDCcd-6MNwXF4W_7noWXFZAfHkxZsRGC9Xs" := by
  decide

/-- Claim C6: for every HEAD response that arrives, `fetchNonce` returns the
`Replay-Nonce` header value whenever it is non-empty — the status code is
unconstrained, so this covers error codes such as 400 — and fails with the
"nonce not found" error whenever the header is absent (Go's `Header.Get`
yields `""` then), again for every status code. -/
theorem fetchNonce_header_policy :
    (∀ res : Response, headerGet res.header "replay-nonce" ≠ "" →
      fetchNonce (.ok res) = (headerGet res.header "replay-nonce", none))
    ∧ (∀ res : Response, headerGet res.header "replay-nonce" = "" →
      fetchNonce (.ok res) = ("", some (.str "nonce not found"))) := by
  constructor
  · intro res h
    simp [fetchNonce, h]
  · intro res h
    simp [fetchNonce, h]

/-- Claim C6 witness: a 400 response with `Replay-Nonce: nonce2` yields
`nonce2` with no error; a 200 response without the header yields the
"nonce not found" error. -/
theorem fetchNonce_header_policy_witness :
    fetchNonce (.ok nonceResponse400) = ("nonce2", none)
    ∧ fetchNonce (.ok noNonceResponse) = ("", some (.str "nonce not found")) := by
  constructor
  · exact (fetchNonce_header_policy.1 nonceResponse400 (by decide)).trans (by decide)
  · exact fetchNonce_header_policy.2 noNonceResponse (by decide)

/-- Claim C9: for every 200 response, `Discover` returns the decoded (possibly
partial) endpoint with a nil error even when the JSON decode fails,
because the source tests the stale outer `err` instead of the `Decode`
result. -/
theorem discover_ignores_decode_failure :
    ∀ (J : JsonCodec) (res : Response), res.statusCode = 200 →
      (J.endpoint res.body).2 = false →
      Discover J (.ok res) = .ok (J.endpoint res.body).1 := by
  intro J res h200 _hfail
  simp [Discover, h200]

/-- Claim C9 witness: a 200 response with a non-JSON body and a failing
decode still produces `.ok` with the partial endpoint. -/
theorem discover_ignores_decode_failure_witness :
    Discover badDirCodec (.ok dir200) = .ok { RegURL := "https://partial" } := by
  exact (discover_ignores_decode_failure badDirCodec dir200 (by decide) (by decide)).trans
    (by decide)

/-- A string of length zero is the empty string. -/
theorem string_empty_of_length_zero (s : String) (h : s.length = 0) : s = "" := by
  cases s with
  | mk l =>
    cases l with
    | nil => rfl
    | cons c cs => simp [String.length] at h

/-- Claim C4: a 201 new-authz response whose decoded Authorization carries a
status other than "pending" makes `Authorize` return an error (and no
Authorization); conversely any Authorization `Authorize` does return has
status exactly "pending". -/
theorem authorize_requires_pending_status :
    (∀ (J : JsonCodec) (res : Response) (az0 : Authorization),
      res.statusCode = 201 → J.authorization res.body = .ok az0 →
      az0.Status ≠ "pending" →
      Authorize J (.ok res) = .error (.str ("Unexpected status: " ++ az0.Status)))
    ∧ (∀ (J : JsonCodec) (pr : Except GoErr Response) (az : Authorization),
      Authorize J pr = .ok az → az.Status = "pending") := by
  constructor
  · intro J res az0 h201 hdec hne
    obtain ⟨ch, co, idf, uri, st⟩ := az0
    simp only [Authorization.Status] at hne
    simp [Authorize, h201, hdec, hne]
  · intro J pr az h
    cases pr with
    | error e => simp [Authorize] at h
    | ok res =>
      by_cases h201 : res.statusCode = 201
      · cases hdec : J.authorization res.body with
        | error m => simp [Authorize, h201, hdec] at h
        | ok az0 =>
          obtain ⟨ch, co, idf, uri, st⟩ := az0
          by_cases hst : st = "pending"
          · simp [Authorize, h201, hdec, hst] at h
            subst hst
            rw [← h]
          · simp [Authorize, h201, hdec, hst] at h
      · simp [Authorize, h201] at h

/-- Claim C4 witness: an immediate status "valid" on a 201 response yields
the "Unexpected status" error; the pending case passes the status check. -/
theorem authorize_requires_pending_status_witness :
    Authorize azValidCodec (.ok res201) = .error (.str "Unexpected status: valid")
    ∧ (⟨[], [], {}, "", "pending"⟩ : Authorization).Status = "pending" := by
  constructor
  · exact (authorize_requires_pending_status.1 azValidCodec res201
      { Status := "valid" } rfl rfl (by decide)).trans (by decide)
  · exact authorize_requires_pending_status.2 azPendingCodec (.ok res201)
      ⟨[], [], {}, "", "pending"⟩ (by decide)

/-- Claim C5: `Accept` treats both 200 and 202 as success, decoding and
returning the server's challenge; every other status yields the classified
Error from `responseError`. -/
theorem accept_status_policy :
    (∀ (J : JsonCodec) (res : Response) (c : Challenge),
      (res.statusCode = 200 ∨ res.statusCode = 202) → J.challenge res.body = .ok c →
      Accept J (.ok res) = .ok c)
    ∧ (∀ (J : JsonCodec) (res : Response),
      res.statusCode ≠ 200 → res.statusCode ≠ 202 →
      Accept J (.ok res) = .error (.acme (responseError J.problem res))) := by
  constructor
  · intro J res c hs hdec
    rcases hs with h | h <;> simp [Accept, h, hdec]
  · intro J res h1 h2
    simp [Accept, h1, h2]

/-- Claim C5 witness: a 202 response decodes to the challenge; a 404
response yields the classified Error built from its status line. -/
theorem accept_status_policy_witness :
    Accept chalCodec (.ok res202) = .ok chal1
    ∧ Accept chalCodec (.ok res404)
        = .error (.acme { Code := 404, Typ := "", Detail := "404 Not Found" }) := by
  constructor
  · exact accept_status_policy.1 chalCodec res202 chal1 (Or.inr rfl) rfl
  · exact (accept_status_policy.2 chalCodec res404 (by decide) (by decide)).trans
      (by decide)

/-- Claim C7 counterexample: a new-reg response with HTTP status 200 — not
201 — makes `Register` succeed and return the populated account, not the
classified Error the claim requires. -/
theorem register_accepts_status_200 :
    Register testCodec {} (.ok reg200Response)
      = .ok { URI := "https://ca.example/acme/reg/1" } := by
  decide

/-- Claim C7 (amended): `Register` succeeds exactly when the new-reg POST is
answered with a 2xx status (`doReg` checks `< 200 ∨ > 299`); for every
non-2xx status it returns the classified Error. -/
theorem register_status_policy :
    (∀ (J : JsonCodec) (acct : Account) (res : Response) (p : AccountPatch),
      200 ≤ res.statusCode → res.statusCode ≤ 299 → J.account res.body = .ok p →
      Register J acct (.ok res) = .ok (doRegUpdate acct p res))
    ∧ (∀ (J : JsonCodec) (acct : Account) (res : Response),
      (res.statusCode < 200 ∨ 299 < res.statusCode) →
      Register J acct (.ok res) = .error (.acme (responseError J.problem res))) := by
  constructor
  · intro J acct res p hlo hhi hdec
    have hc : ¬(res.statusCode < 200 ∨ res.statusCode > 299) := by omega
    simp [Register, doReg, hc, hdec]
  · intro J acct res h
    have hc : res.statusCode < 200 ∨ res.statusCode > 299 := by omega
    simp [Register, doReg, hc]

/-- Claim C7 witness: 202 succeeds; 400 yields the classified Error. -/
theorem register_status_policy_witness :
    Register testCodec {} (.ok regNoLinkResponse)
      = .ok { URI := "https://ca.example/acme/reg/1" }
    ∧ Register testCodec {} (.ok reg400Response)
      = .error (.acme { Code := 400, Typ := "", Detail := "400 Bad Request" }) := by
  constructor
  · exact (register_status_policy.1 testCodec {} regNoLinkResponse {}
      (by decide) (by decide) rfl).trans (by decide)
  · exact (register_status_policy.2 testCodec {} reg400Response (by decide)).trans
      (by decide)

/-- Claim C8: on a 201 new-cert response whose `ContentLength` reflects its
body, an empty body gives a nil certificate together with the `Location`
header as certURL; a present body is parsed as a DER certificate (and
returned with the same certURL); every other status gives the classified
Error. -/
theorem createCert_response_policy :
    (∀ (J : JsonCodec) (res : Response),
      res.statusCode = 201 → res.contentLength = (res.body.length : Int) →
      res.body = "" →
      CreateCert J (.ok res) = .ok (none, headerGet res.header "Location"))
    ∧ (∀ (J : JsonCodec) (res : Response) (c : Certificate),
      res.statusCode = 201 → res.contentLength = (res.body.length : Int) →
      res.body ≠ "" → J.certificate res.body = .ok c →
      CreateCert J (.ok res) = .ok (some c, headerGet res.header "Location"))
    ∧ (∀ (J : JsonCodec) (res : Response),
      res.statusCode ≠ 201 →
      CreateCert J (.ok res) = .error (.acme (responseError J.problem res))) := by
  refine ⟨?_, ?_, ?_⟩
  · intro J res h201 hcl hbody
    have hz : res.contentLength = 0 := by rw [hcl, hbody]; rfl
    simp [CreateCert, h201, hz]
  · intro J res c h201 hcl hbody hdec
    have hpos : 0 < res.body.length :=
      Nat.pos_of_ne_zero (fun h0 => hbody (string_empty_of_length_zero _ h0))
    have hgt : 0 < res.contentLength := by
      rw [hcl]; exact_mod_cast hpos
    simp [CreateCert, h201, hgt, hdec]
  · intro J res h201
    simp [CreateCert, h201]

/-- Claim C8 witness: a 201 with empty body returns a nil certificate and the
Location URL; a 201 with a body returns the parsed certificate; a 404
returns the classified Error. -/
theorem createCert_response_policy_witness :
    CreateCert testCodec (.ok cert201Empty) = .ok (none, "https://ca.example/cert/1")
    ∧ CreateCert testCodec (.ok cert201Body)
        = .ok (some ⟨"DER"⟩, "https://ca.example/cert/1")
    ∧ CreateCert testCodec (.ok res404)
        = .error (.acme { Code := 404, Typ := "", Detail := "404 Not Found" }) := by
  refine ⟨?_, ?_, ?_⟩
  · exact (createCert_response_policy.1 testCodec cert201Empty rfl (by decide)
      rfl).trans (by decide)
  · exact (createCert_response_policy.2.1 testCodec cert201Body ⟨"DER"⟩ rfl
      (by decide) (by decide) rfl).trans (by decide)
  · exact (createCert_response_policy.2.2 testCodec res404 (by decide)).trans
      (by decide)

/-- Claim C10 counterexample: a successful `UpdateReg` whose response carries
no Link headers still changes `CurrentTerms`, because the response body
JSON (`terms` field) is decoded into the account before the Link-header
updates; the prior value is not kept. -/
theorem updateReg_body_overwrites_terms_without_link :
    UpdateReg termsBodyCodec priorAccount (.ok regNoLinkResponse)
      = .ok { URI := "https://ca.example/acme/reg/1"
            , CurrentTerms := "https://ca.example/terms/v2"
            , Authz := "https://ca.example/acme/new-authz" }
    ∧ "https://ca.example/terms/v2" ≠ priorAccount.CurrentTerms := by
  refine ⟨by decide, by decide⟩

/-- Claim C10 (amended): after a successful `doReg` (hence after
Register/GetReg/UpdateReg), `URI` is unconditionally the `Location` header
value (empty when absent); `CurrentTerms` keeps its prior value when the
body JSON does not set `terms` and no `rel="terms-of-service"` Link header
matches; `Authz` keeps its prior value when the body JSON does not set
`authz` and no `rel="next"` Link header matches. -/
theorem doReg_frame_conditions :
    ∀ (J : JsonCodec) (typ : String) (acct : Account) (res : Response)
      (p : AccountPatch) (a : Account),
      J.account res.body = .ok p →
      doReg J typ acct (.ok res) = .ok a →
      a.URI = headerGet res.header "Location"
      ∧ (p.currentTerms = none → parseLinkHeader res.header "terms-of-service" = "" →
          a.CurrentTerms = acct.CurrentTerms)
      ∧ (p.authz = none → parseLinkHeader res.header "next" = "" →
          a.Authz = acct.Authz) := by
  intro J typ acct res p a hdec h
  by_cases hc : res.statusCode < 200 ∨ res.statusCode > 299
  · simp [doReg, hc] at h
  · simp [doReg, hc, hdec] at h
    obtain ⟨u, co, ag, cu, az, au, ce⟩ := acct
    subst h
    refine ⟨?_, ?_, ?_⟩
    · simp [doRegUpdate, applyAccountPatch]
      split <;> split <;> rfl
    · intro hnone hlink
      simp [doRegUpdate, applyAccountPatch, hnone, hlink]
      split <;> rfl
    · intro hnone hlink
      simp [doRegUpdate, applyAccountPatch, hnone, hlink]
      split <;> rfl

/-- Claim C10 witness: a successful `doReg` against a response with a
Location header, no Link headers, and a body that sets neither `terms` nor
`authz` keeps both prior values and takes `URI` from Location. -/
theorem doReg_frame_conditions_witness :
    ({ URI := "https://ca.example/acme/reg/1"
     , CurrentTerms := "https://ca.example/terms/v1"
     , Authz := "https://ca.example/acme/new-authz" } : Account).URI
        = headerGet regNoLinkResponse.header "Location"
    ∧ (({} : AccountPatch).currentTerms = none →
        parseLinkHeader regNoLinkResponse.header "terms-of-service" = "" →
        ({ URI := "https://ca.example/acme/reg/1"
         , CurrentTerms := "https://ca.example/terms/v1"
         , Authz := "https://ca.example/acme/new-authz" } : Account).CurrentTerms
          = priorAccount.CurrentTerms)
    ∧ (({} : AccountPatch).authz = none →
        parseLinkHeader regNoLinkResponse.header "next" = "" →
        ({ URI := "https://ca.example/acme/reg/1"
         , CurrentTerms := "https://ca.example/terms/v1"
         , Authz := "https://ca.example/acme/new-authz" } : Account).Authz
          = priorAccount.Authz) := by
  exact doReg_frame_conditions testCodec "reg" priorAccount regNoLinkResponse {}
    _ rfl (by decide)

end GoAcme
